import Mathlib

/-!
Verification of the store-support chat backend.

A shallow embedding of the real-time conversation layer of the repository:
the `ZAIService` language-model gateway (`src/unnamed/part_002`, lines 29-192),
the `ChatService` registry/orchestrator (`src/unnamed/part_002`, lines 211-429),
the Context Store operations it consumes (`src/server/storage.ts`), and the
REST message endpoint (`src/unnamed/part_004`).

External collaborators (database, Shopify API, the model HTTP endpoint) are
modelled as explicit oracles inside `TurnEnv`: each possibly-failing call is
represented by a success flag or an `Option`/outcome value, and the pipeline
threads the storage state through exactly the control flow of the TypeScript
source (including the `try`/`catch` structure, where a failure after a
successful write leaves the write in place).
-/

namespace ShopChat

/-- Decidable prefix test on code-point lists (used to model JavaScript
`String.prototype.includes`). -/
def listIsPrefixOfB : List Nat → List Nat → Bool
  | [], _ => true
  | _ :: _, [] => false
  | a :: as, b :: bs => a == b && listIsPrefixOfB as bs

/-- Decidable infix test on code-point lists. -/
def listIsInfixOfB (pat : List Nat) : List Nat → Bool
  | [] => pat.isEmpty
  | b :: bs => listIsPrefixOfB pat (b :: bs) || listIsInfixOfB pat bs

/-- The code points of a string. -/
def strCodes (s : String) : List Nat :=
  s.toList.map Char.toNat

/-- ASCII case-folding of one code point; agrees with JavaScript
`toLowerCase` (and with the Lean `Char.toLower`) on the ASCII inputs the
classifier is ever compared against. -/
def lowerCode (n : Nat) : Nat :=
  if 65 ≤ n && n ≤ 90 then n + 32 else n

/-- Model of JavaScript `s.includes(pat)` on code-point lists. -/
def codesInclude (s pat : List Nat) : Bool :=
  listIsInfixOfB pat s

/-- The five intents of `ZAIService.analyzeQuery`
(`src/unnamed/part_002`, line 155). -/
inductive Intent
  | product_search
  | policy_question
  | general_inquiry
  | complaint
  | other
deriving DecidableEq

namespace ZAIService

/-- Intent field of `ZAIService.analyzeQuery` (`src/unnamed/part_002`,
lines 160-172): lower-case the query, then test fixed keyword substrings in a
fixed priority order.  The `entities`/`keywords` fields of `analyzeQuery` are
not consumed by any modelled caller and are not represented. -/
def analyzeQueryIntent (query : String) : Intent :=
  let lowerQuery := (strCodes query).map lowerCode
  let inc := fun (kw : String) => codesInclude lowerQuery (strCodes kw)
  if inc "looking for" || inc "find" || inc "recommend" || inc "suggest" then
    .product_search
  else if inc "return" || inc "shipping" || inc "policy" || inc "refund" then
    .policy_question
  else if inc "problem" || inc "issue" || inc "wrong" || inc "complaint" then
    .complaint
  else if inc "how" || inc "what" || inc "when" || inc "where" then
    .general_inquiry
  else
    .other

/-- Field `message.content` of one element of `ZAIResponse.choices`
(`src/unnamed/part_002`, lines 8-14); both levels are optional because the
parsed JSON may lack them. -/
structure ChoiceMsg where
  content : Option String
deriving DecidableEq

/-- One element of `ZAIResponse.choices`. -/
structure Choice where
  message : Option ChoiceMsg
deriving DecidableEq

/-- Embedding of `ZAIResponse.usage` (only the consumed `total_tokens` field). -/
structure Usage where
  total_tokens : Nat
deriving DecidableEq

/-- The body of an HTTP response from the model endpoint: either `json()`
throws, or it parses to an object whose `choices`/`usage` fields may each be
absent. -/
inductive BodyOutcome
  | parseError
  | parsed (choices : Option (List Choice)) (usage : Option Usage)
deriving DecidableEq

/-- Outcome of the single `fetch` in `ZAIService.generateResponse`
(`src/unnamed/part_002`, line 54): the network call throws, or an HTTP
response arrives with an `ok` flag, a status code and a body. -/
inductive FetchOutcome
  | networkError
  | httpResponse (ok : Bool) (status : Nat) (body : BodyOutcome)
deriving DecidableEq

/-- The single error the gateway raises to its caller
(the fixed rethrow on
`src/unnamed/part_002`, line 84). -/
inductive ZAIError
  | generationFailed
deriving DecidableEq

/-- Successful result of `ZAIService.generateResponse`
(`src/unnamed/part_002`, lines 39-43). -/
structure GenResult where
  response : String
  tokensUsed : Nat
  responseTime : Nat
deriving DecidableEq

/-- The placeholder text substituted when the parsed body carries no choice
content (`src/unnamed/part_002`, line 78). -/
def defaultUnableReply : String :=
  "I apologize, but I was unable to generate a response."

/-- Embedding of `data.choices[0]?.message?.content` (`src/unnamed/part_002`, line 78). -/
def choiceContent (choices : List Choice) : Option String :=
  (choices.head?.bind (fun c => c.message)).bind (fun m => m.content)

/-- Embedding of `ZAIService.generateResponse` (`src/unnamed/part_002`, lines 35-86),
abstracted over the outcome of the single `fetch`.  The construction of the
outbound request (system prompt, last-10 history slice, temperature 0.7) only
shapes the HTTP request, which is abstracted by `FetchOutcome`; the observable
behaviour modelled here is the mapping from response outcome to
result-or-error.  `catch` turns every thrown error — network failure, the
non-`ok`-status `throw`, a `json()` parse failure, and the `TypeError` from
indexing an absent `choices` array — into the single `generationFailed`
error.  A present-but-contentless choice list does **not** throw: the `||`
on line 78 substitutes `defaultUnableReply`, and `usage?.total_tokens || 0`
defaults the token count. -/
def generateResponse (fetch : FetchOutcome) (responseTime : Nat) :
    Except ZAIError GenResult :=
  match fetch with
  | .networkError => .error .generationFailed
  | .httpResponse ok _ body =>
    if ok = false then .error .generationFailed
    else
      match body with
      | .parseError => .error .generationFailed
      | .parsed none _ => .error .generationFailed
      | .parsed (some choices) usage =>
        let response :=
          match choiceContent choices with
          | some c => if c = "" then defaultUnableReply else c
          | none => defaultUnableReply
        .ok { response := response
              tokensUsed := match usage with | some u => u.total_tokens | none => 0
              responseTime := responseTime }

end ZAIService

/-- Message roles (`role` column of the `messages` table; the pipeline writes
only `user` and `assistant`). -/
inductive Role
  | user
  | assistant
  | system
deriving DecidableEq

/-- The `{id, title, handle}` projection of a product stored into assistant
metadata (`src/unnamed/part_002`, lines 312-316). -/
structure ProductRef where
  id : String
  title : String
  handle : String
deriving DecidableEq

/-- One page or blog post of the store context (only identity matters to the
modelled control flow). -/
structure PageRec where
  title : String
deriving DecidableEq

/-- Embedding of `StoreContext` (`src/unnamed/part_002`, lines 22-27). -/
structure StoreContext where
  products : List ProductRef
  collections : List String
  pages : List PageRec
  blogPosts : List PageRec
deriving DecidableEq

/-- The metadata map attached to a persisted Message: `{}` for user turns,
the model/usage/intent/context-products object for successful assistant turns
(`src/unnamed/part_002`, lines 307-317), or the error object of the fallback
turn (line 351). -/
inductive Metadata
  | empty
  | success (model : String) (tokensUsed : Nat) (responseTime : Nat)
      (intent : Intent) (contextProducts : List ProductRef)
  | errorMeta (error : Bool) (errorType : String)
deriving DecidableEq

/-- A persisted Message row. -/
structure Msg where
  conversationId : String
  role : Role
  content : String
  metadata : Metadata
deriving DecidableEq

/-- A Conversation row (the fields consumed by the modelled code paths;
timestamps are abstract clock readings). -/
structure ConvRec where
  id : String
  storeId : String
  startedAt : Nat
  lastMessageAt : Nat
deriving DecidableEq

/-- The Context Store state: messages in creation order, conversations, and
the count of write-once AI interaction log entries
(`createAiInteraction` appends; nothing reads the log back). -/
structure Storage where
  messages : List Msg
  conversations : List ConvRec
  interactions : Nat
deriving DecidableEq

/-- Embedding of `createMessage` (`src/server/storage.ts`, lines 281-284): append one row. -/
def Storage.createMessage (st : Storage) (m : Msg) : Storage :=
  { st with messages := st.messages ++ [m] }

/-- Embedding of `getMessages` (`src/server/storage.ts`, lines 275-279): rows of one
conversation in creation (timestamp) order. -/
def Storage.getMessages (st : Storage) (conversationId : String) : List Msg :=
  st.messages.filter (fun m => m.conversationId == conversationId)

/-- Embedding of `updateConversationLastMessage` (`src/server/storage.ts`, lines 269-273):
set `lastMessageAt` of the matching conversation to the current clock. -/
def Storage.updateConversationLastMessage (st : Storage) (conversationId : String)
    (now : Nat) : Storage :=
  { st with conversations :=
      st.conversations.map (fun c =>
        if c.id == conversationId then { c with lastMessageAt := now } else c) }

/-- One call made to the Context Store while resolving store context;
recorded so that theorems can speak about which store id each lookup used. -/
inductive StoreLookup
  | search (storeId query : String) (limit : Nat)
  | pagesGet (storeId : String) (limit : Nat)
  | postsGet (storeId : String) (limit : Nat)
deriving DecidableEq

/-- The store id a lookup was keyed by. -/
def StoreLookup.sid : StoreLookup → String
  | .search s _ _ => s
  | .pagesGet s _ => s
  | .postsGet s _ => s

/-- Trace of a turn: the Context Store lookups issued during context
resolution and how many times the Gateway was invoked. -/
structure Trace where
  lookups : List StoreLookup
  gatewayCalls : Nat
deriving DecidableEq

/-- Oracle for one turn of the pipeline: outcomes of every external call the
TypeScript code awaits.  Functions stand for possibly-failing collaborator
queries (`none` = the promise rejected); Booleans stand for success of the
corresponding write. -/
structure TurnEnv where
  fetchOutcome : ZAIService.FetchOutcome
  responseTime : Nat
  model : String
  searchStoreData : String → String → Nat → Option StoreContext
  getPages : String → Nat → Option (List PageRec)
  getBlogPosts : String → Nat → Option (List PageRec)
  getMessagesOk : Bool
  createUserMsgOk : Bool
  createAssistantMsgOk : Bool
  createInteractionOk : Bool
  updateLastMessageOk : Bool
  createFallbackOk : Bool

namespace ChatService

/-- Embedding of `ChatService.getStoreContext` (`src/unnamed/part_002`, lines 358-383):
classify the query, then fetch a context bundle shaped by the intent
(`shopifyService.searchStoreData` delegates to `storage.searchStoreData`
unchanged, `src/unnamed/part_003`, lines 307-313).  Returns the resolved
context (`none` when a collaborator call rejected, which throws out of the
caller `try` block) together with the lookups issued, in call order. -/
def getStoreContext (env : TurnEnv) (storeId query : String) :
    Option StoreContext × List StoreLookup :=
  match ZAIService.analyzeQueryIntent query with
  | .product_search =>
    (env.searchStoreData storeId query 20, [.search storeId query 20])
  | .policy_question =>
    match env.searchStoreData storeId query 5 with
    | none => (none, [.search storeId query 5])
    | some storeData =>
      match env.getPages storeId 20 with
      | none => (none, [.search storeId query 5, .pagesGet storeId 20])
      | some pg =>
        match env.getBlogPosts storeId 10 with
        | none => (none, [.search storeId query 5, .pagesGet storeId 20, .postsGet storeId 10])
        | some bp =>
          (some { storeData with pages := pg, blogPosts := bp },
           [.search storeId query 5, .pagesGet storeId 20, .postsGet storeId 10])
  | _ =>
    (env.searchStoreData storeId query 10, [.search storeId query 10])

/-- The fixed user-facing apology of the fallback assistant message
(`src/unnamed/part_002`, line 350). -/
def fallbackContent : String :=
  "I apologize, but I\x27m experiencing some technical difficulties. Please try again in a moment, or feel free to contact our support team directly."

/-- The fallback assistant message persisted by the `catch` branch of
`ChatService.generateResponse` (`src/unnamed/part_002`, lines 347-352). -/
def fallbackMsg (conversationId : String) : Msg :=
  { conversationId := conversationId
    role := .assistant
    content := fallbackContent
    metadata := .errorMeta true "ai_generation_failed" }

/-- Result of `ChatService.generateResponse` as seen by its caller: the
returned message, or a rethrown error (only when the fallback write itself
also failed). -/
inductive GenOutcome
  | ok (msg : Msg)
  | threw
deriving DecidableEq

/-- The `catch` branch of `ChatService.generateResponse`
(`src/unnamed/part_002`, lines 343-355): persist the fallback message and
return it; if even that write fails, the error propagates to the caller. -/
def runCatch (env : TurnEnv) (st : Storage) (conversationId : String) (tr : Trace) :
    Storage × GenOutcome × Trace :=
  if env.createFallbackOk then
    (st.createMessage (fallbackMsg conversationId), .ok (fallbackMsg conversationId), tr)
  else
    (st, .threw, tr)

/-- Embedding of `ChatService.generateResponse` (`src/unnamed/part_002`, lines 283-356).
The `try` branch runs getMessages → getStoreContext → Gateway →
createMessage(assistant) → createAiInteraction →
updateConversationLastMessage in order; the first failure jumps to the
`catch` branch with every earlier write still in place.  The history slice
built from `getMessages` (last 10 turns) feeds only the outbound HTTP
request, which is abstracted by `env.fetchOutcome`; the `getMessages` call
itself is modelled by its success flag because its failure aborts the `try`. -/
def generateResponse (env : TurnEnv) (st : Storage) (now : Nat)
    (storeId conversationId userMessage : String) :
    Storage × GenOutcome × Trace :=
  if env.getMessagesOk = false then
    runCatch env st conversationId ⟨[], 0⟩
  else
    match getStoreContext env storeId userMessage with
    | (none, lk) => runCatch env st conversationId ⟨lk, 0⟩
    | (some storeContext, lk) =>
      match ZAIService.generateResponse env.fetchOutcome env.responseTime with
      | .error _ => runCatch env st conversationId ⟨lk, 1⟩
      | .ok aiResult =>
        if env.createAssistantMsgOk = false then
          runCatch env st conversationId ⟨lk, 1⟩
        else
          let aiMessage : Msg :=
            { conversationId := conversationId
              role := .assistant
              content := aiResult.response
              metadata := .success env.model aiResult.tokensUsed aiResult.responseTime
                (ZAIService.analyzeQueryIntent userMessage)
                (storeContext.products.take 5) }
          let st1 := st.createMessage aiMessage
          if env.createInteractionOk = false then
            runCatch env st1 conversationId ⟨lk, 1⟩
          else
            let st2 := { st1 with interactions := st1.interactions + 1 }
            if env.updateLastMessageOk = false then
              runCatch env st2 conversationId ⟨lk, 1⟩
            else
              (st2.updateConversationLastMessage conversationId now, .ok aiMessage, ⟨lk, 1⟩)

end ChatService

/-- A live duplex connection, identified by reference identity. -/
abbrev ConnId := Nat

/-- Embedding of `ChatService.connectedClients` (`src/unnamed/part_002`, line 212): a
JavaScript `Map<string, WebSocket>` keyed by **conversation id**, modelled as
an association list in insertion order. -/
abbrev Hub := List (String × ConnId)

/-- JavaScript `Map.set`: if the key is present, overwrite its value in
place (keeping its position); otherwise append the pair. -/
def mapSet (m : Hub) (k : String) (v : ConnId) : Hub :=
  if m.any (fun p => p.1 == k) then
    m.map (fun p => if p.1 == k then (k, v) else p)
  else
    m ++ [(k, v)]

/-- Events the server writes to a connection (`src/unnamed/part_002`). -/
inductive OutEvent
  | joined (conversationId : String)
  | newMessage (conversationId : String) (message : Msg)
  | typing (start : Bool) (conversationId : String)
  | errorEv (message : String)
deriving DecidableEq

namespace ChatService

/-- Embedding of `ChatService.broadcastToConversation` (`src/unnamed/part_002`,
lines 390-396): iterate the registry in insertion order and send `data` to
every entry whose key equals the conversation id, whose socket differs from
`excludeWs` (reference inequality; always true when no exclusion is given)
and whose transport is open.  Returns the deliveries made, in order. -/
def broadcastToConversation (clients : Hub) (isOpen : ConnId → Bool)
    (conversationId : String) (data : OutEvent) (excludeWs : Option ConnId) :
    List (ConnId × OutEvent) :=
  clients.filterMap (fun p =>
    if p.1 == conversationId
        && (match excludeWs with | none => true | some e => p.2 != e)
        && isOpen p.2 then
      some (p.2, data)
    else
      none)

/-- Embedding of `ChatService.handleUserMessage` (`src/unnamed/part_002`, lines 244-281):
persist the user turn, broadcast it (no exclusion, so the registration of the sender — if any — also receives the echo), run the reply pipeline with
`userMessage.conversationId` passed as the `storeId` argument, then broadcast
the returned message; a thrown error anywhere is caught and answered with an
`error` event to the sender only. -/
def handleUserMessage (env : TurnEnv) (hub : Hub) (isOpen : ConnId → Bool)
    (st : Storage) (now : Nat) (conversationId content : String) (ws : ConnId) :
    Storage × List (ConnId × OutEvent) × Trace :=
  if env.createUserMsgOk = false then
    (st, [(ws, .errorEv "Failed to process message")], ⟨[], 0⟩)
  else
    let userMessage : Msg :=
      { conversationId := conversationId, role := .user, content := content
        metadata := .empty }
    let st1 := st.createMessage userMessage
    let echo := broadcastToConversation hub isOpen conversationId
      (.newMessage conversationId userMessage) none
    match generateResponse env st1 now userMessage.conversationId conversationId content with
    | (st2, .ok aiResponse, tr) =>
      (st2,
       echo ++ broadcastToConversation hub isOpen conversationId
         (.newMessage conversationId aiResponse) none,
       tr)
    | (st2, .threw, tr) =>
      (st2, echo ++ [(ws, .errorEv "Failed to process message")], tr)

/-- Inbound WebSocket event (`src/unnamed/part_002`, lines 201-209); absent
string fields are modelled by `""`, matching JavaScript truthiness of the
guards. -/
inductive WsType
  | join_conversation
  | send_message
  | typing_start
  | typing_stop
deriving DecidableEq

/-- Tagged payload of an inbound event (fields the handler consumes). -/
structure WsMessage where
  type : WsType
  conversationId : String := ""
  content : String := ""
deriving DecidableEq

/-- Result of dispatching one inbound event. -/
structure WsStep where
  hub : Hub
  storage : Storage
  events : List (ConnId × OutEvent)
  trace : Trace

/-- Embedding of `ChatService.handleWebSocketMessage` (`src/unnamed/part_002`,
lines 214-242): `join_conversation` registers the sender under the
conversation id and acknowledges to the sender only; `send_message` runs the
turn pipeline; typing events are re-broadcast to the conversation excluding
the sender.  Falsy (empty) required fields make the event a no-op. -/
def handleWebSocketMessage (env : TurnEnv) (hub : Hub) (isOpen : ConnId → Bool)
    (st : Storage) (now : Nat) (ws : ConnId) (message : WsMessage) : WsStep :=
  match message.type with
  | .join_conversation =>
    if message.conversationId != "" then
      { hub := mapSet hub message.conversationId ws
        storage := st
        events := [(ws, .joined message.conversationId)]
        trace := ⟨[], 0⟩ }
    else
      { hub := hub, storage := st, events := [], trace := ⟨[], 0⟩ }
  | .send_message =>
    if message.conversationId != "" && message.content != "" then
      match handleUserMessage env hub isOpen st now message.conversationId message.content ws with
      | (st1, evs, tr) => { hub := hub, storage := st1, events := evs, trace := tr }
    else
      { hub := hub, storage := st, events := [], trace := ⟨[], 0⟩ }
  | .typing_start =>
    if message.conversationId != "" then
      { hub := hub, storage := st
        events := broadcastToConversation hub isOpen message.conversationId
          (.typing true message.conversationId) (some ws)
        trace := ⟨[], 0⟩ }
    else
      { hub := hub, storage := st, events := [], trace := ⟨[], 0⟩ }
  | .typing_stop =>
    if message.conversationId != "" then
      { hub := hub, storage := st
        events := broadcastToConversation hub isOpen message.conversationId
          (.typing false message.conversationId) (some ws)
        trace := ⟨[], 0⟩ }
    else
      { hub := hub, storage := st, events := [], trace := ⟨[], 0⟩ }

end ChatService

namespace RestApi

/-- Embedding of `POST /api/conversations/:conversationId/messages`
(`src/unnamed/part_004`, lines 274-305), restricted to the persistence and
reply pipeline: persist the posted message; when its role is `user` and the
conversation exists, run `chatService.generateResponse` with the
**stored `storeId` of the conversation** as the store id argument (unlike the
WebSocket path).  The subsequent broadcast to every open socket of the whole
server does not touch storage and carries no Context Store lookups, so it is
not modelled here. -/
def postConversationMessage (env : TurnEnv) (st : Storage) (now : Nat)
    (conversationId : String) (role : Role) (content : String) :
    Storage × Trace :=
  if env.createUserMsgOk = false then
    (st, ⟨[], 0⟩)
  else
    let message : Msg :=
      { conversationId := conversationId, role := role, content := content
        metadata := .empty }
    let st1 := st.createMessage message
    if role = .user then
      match st1.conversations.find? (fun c => c.id == conversationId) with
      | some conversation =>
        match ChatService.generateResponse env st1 now conversation.storeId
            conversationId message.content with
        | (st2, _, tr) => (st2, tr)
      | none => (st1, ⟨[], 0⟩)
    else
      (st1, ⟨[], 0⟩)

end RestApi

deriving instance DecidableEq for Except

/-! ## Concrete fixtures

Closed instantiations of the collaborator oracle used by counterexamples and
witnesses: a fully successful environment, and variations in which exactly
one collaborator call fails. -/

/-- Every collaborator call succeeds; the model endpoint answers with one
well-formed choice. -/
def envOk : TurnEnv :=
  { fetchOutcome := .httpResponse true 200
      (.parsed (some [⟨some ⟨some "Sure, we have those."⟩⟩]) (some ⟨42⟩))
    responseTime := 7
    model := "glm-4.5-flash"
    searchStoreData := fun _ _ _ => some ⟨[⟨"p1", "Shoe", "shoe"⟩], [], [], []⟩
    getPages := fun _ _ => some []
    getBlogPosts := fun _ _ => some []
    getMessagesOk := true
    createUserMsgOk := true
    createAssistantMsgOk := true
    createInteractionOk := true
    updateLastMessageOk := true
    createFallbackOk := true }

/-- As `envOk`, but the `fetch` to the model endpoint throws. -/
def envNetFail : TurnEnv := { envOk with fetchOutcome := .networkError }

/-- As `envOk`, but `createAiInteraction` rejects (after the assistant
message has already been persisted). -/
def envInteractionFail : TurnEnv := { envOk with createInteractionOk := false }

/-- Every transport is in the open state. -/
def allOpen : ConnId → Bool := fun _ => true

/-! ## Supporting lemmas -/

/-- A list with no entry keyed `k` filters to nothing under the key test. -/
theorem filter_key_of_any_false (m : Hub) (k : String)
    (h : m.any (fun p => p.1 == k) = false) :
    m.filter (fun p => p.1 == k) = [] := by
  induction m with
  | nil => rfl
  | cons a m ih =>
    rw [List.any_cons, Bool.or_eq_false_iff] at h
    simp [List.filter_cons, h.1, ih h.2]

/-- Overwriting an absent key by `Map.set` rewrites no entry. -/
theorem map_set_absent (m : Hub) (k : String) (v : ConnId)
    (h : m.any (fun p => p.1 == k) = false) :
    m.map (fun p => if p.1 == k then (k, v) else p) = m := by
  induction m with
  | nil => rfl
  | cons a m ih =>
    rw [List.any_cons, Bool.or_eq_false_iff] at h
    rw [List.map_cons, if_neg (by simp [h.1]), ih h.2]

/-- A key absent from the key image never satisfies the key test. -/
theorem any_key_false_of_not_mem (m : Hub) (k : String)
    (h : k ∉ m.map Prod.fst) :
    m.any (fun p => p.1 == k) = false := by
  rw [← Bool.not_eq_true, List.any_eq_true]
  rintro ⟨p, hp, hpk⟩
  have hp1 : p.1 = k := by simpa using hpk
  exact h (hp1 ▸ List.mem_map_of_mem Prod.fst hp)

/-- Key image of the registry after `Map.set`. -/
theorem mapSet_map_fst (m : Hub) (k : String) (v : ConnId) :
    (mapSet m k v).map Prod.fst
      = if m.any (fun p => p.1 == k) then m.map Prod.fst else m.map Prod.fst ++ [k] := by
  unfold mapSet
  split
  · rw [List.map_map]
    apply List.map_congr_left
    intro p _
    by_cases hp : p.1 = k
    · simp [hp]
    · simp [hp]
  · rw [List.map_append]
    rfl

/-- `Map.set` preserves distinctness of registry keys. -/
theorem mapSet_keys_nodup (m : Hub) (k : String) (v : ConnId)
    (h : (m.map Prod.fst).Nodup) :
    ((mapSet m k v).map Prod.fst).Nodup := by
  rw [mapSet_map_fst]
  split
  · exact h
  · rename_i hany
    have hk : k ∉ m.map Prod.fst := by
      intro hmem
      rcases List.mem_map.1 hmem with ⟨p, hp, hfst⟩
      exact hany (List.any_eq_true.2 ⟨p, hp, by simp [hfst]⟩)
    simp [List.nodup_append, h, hk]

/-- On a registry with distinct keys, `Map.set` leaves exactly one entry
under the written key. -/
theorem filter_key_mapSet (m : Hub) (k : String) (v : ConnId)
    (h : (m.map Prod.fst).Nodup) :
    (mapSet m k v).filter (fun p => p.1 == k) = [(k, v)] := by
  induction m with
  | nil => simp [mapSet]
  | cons a m ih =>
    rw [List.map_cons, List.nodup_cons] at h
    obtain ⟨ha, hm⟩ := h
    by_cases hak : a.1 = k
    · have htail : m.any (fun p => p.1 == k) = false :=
        any_key_false_of_not_mem m k (hak ▸ ha)
      have hany : (a :: m).any (fun p => p.1 == k) = true := by
        simp [List.any_cons, hak]
      unfold mapSet
      rw [if_pos hany, List.map_cons, if_pos (by simpa using hak),
        map_set_absent m k v htail, List.filter_cons]
      simp [filter_key_of_any_false m k htail]
    · by_cases hmany : m.any (fun p => p.1 == k) = true
      · have hany : (a :: m).any (fun p => p.1 == k) = true := by
          simp [List.any_cons, hmany]
        have hset : mapSet m k v = m.map (fun p => if p.1 == k then (k, v) else p) := by
          unfold mapSet
          rw [if_pos hmany]
        have := ih hm
        rw [hset] at this
        unfold mapSet
        rw [if_pos hany, List.map_cons, if_neg (by simpa using hak)]
        rw [List.filter_cons, if_neg (by simpa using hak)]
        exact this
      · have hany : (a :: m).any (fun p => p.1 == k) = false := by
          simp [List.any_cons, hak, hmany]
        unfold mapSet
        rw [if_neg (by simp [hany]), List.filter_append]
        rw [filter_key_of_any_false (a :: m) k hany]
        simp

/-- Every Context Store lookup made while resolving store context is keyed
by the `storeId` argument the resolver was given. -/
theorem getStoreContext_lookups_sid (env : TurnEnv) (s q : String) :
    ((ChatService.getStoreContext env s q).2).all (fun l => l.sid == s) = true := by
  unfold ChatService.getStoreContext
  cases ZAIService.analyzeQueryIntent q with
  | product_search => simp [StoreLookup.sid]
  | policy_question =>
    cases env.searchStoreData s q 5 with
    | none => simp [StoreLookup.sid]
    | some sd =>
      cases env.getPages s 20 with
      | none => simp [StoreLookup.sid]
      | some pg =>
        cases env.getBlogPosts s 10 with
        | none => simp [StoreLookup.sid]
        | some bp => simp [StoreLookup.sid]
  | general_inquiry => simp [StoreLookup.sid]
  | complaint => simp [StoreLookup.sid]
  | other => simp [StoreLookup.sid]

/-- Every Context Store lookup issued by the reply pipeline is keyed by the
`storeId` argument the pipeline was given. -/
theorem generateResponse_lookups_sid (env : TurnEnv) (st : Storage) (now : Nat)
    (s cid u : String) :
    ((ChatService.generateResponse env st now s cid u).2.2).lookups.all
      (fun l => l.sid == s) = true := by
  have hctxAll := getStoreContext_lookups_sid env s u
  unfold ChatService.generateResponse
  split
  · simp [ChatService.runCatch]
    split <;> simp
  · rcases hctx : ChatService.getStoreContext env s u with ⟨octx, lk⟩
    rw [hctx] at hctxAll
    cases octx with
    | none =>
      simp only [ChatService.runCatch]
      split <;> simpa using hctxAll
    | some ctx =>
      cases ZAIService.generateResponse env.fetchOutcome env.responseTime with
      | error e =>
        simp only [ChatService.runCatch]
        split <;> simpa using hctxAll
      | ok aiResult =>
        simp only [ChatService.runCatch]
        repeat' split
        all_goals simpa using hctxAll

/-- The reply pipeline never removes a persisted message: every message of
the incoming storage is still present afterwards. -/
theorem generateResponse_mem_messages (env : TurnEnv) (st : Storage) (now : Nat)
    (s cid u : String) (m : Msg) (h : m ∈ st.messages) :
    m ∈ ((ChatService.generateResponse env st now s cid u).1).messages := by
  unfold ChatService.generateResponse ChatService.runCatch
  repeat' split
  all_goals
    first
    | exact h
    | simp_all [Storage.createMessage, Storage.updateConversationLastMessage,
        List.mem_append]

/-- The number of assistant-role messages persisted in one conversation. -/
def assistantCount (st : Storage) (cid : String) : Nat :=
  (st.messages.filter (fun m => m.conversationId == cid && m.role == .assistant)).length

/-- The reply pipeline appends exactly one assistant message to the
conversation whenever the persistence writes and the bookkeeping writes
(interaction log, freshness update) all succeed — regardless of whether the
Gateway succeeds (real reply) or any pre-persist step fails (fallback). -/
theorem generateResponse_assistantCount (env : TurnEnv) (st : Storage) (now : Nat)
    (s cid u : String)
    (h2 : env.createAssistantMsgOk = true) (h3 : env.createInteractionOk = true)
    (h4 : env.updateLastMessageOk = true) (h5 : env.createFallbackOk = true) :
    assistantCount ((ChatService.generateResponse env st now s cid u).1) cid
      = assistantCount st cid + 1 := by
  unfold ChatService.generateResponse ChatService.runCatch
  repeat' split
  all_goals
    simp_all [assistantCount, Storage.createMessage,
      Storage.updateConversationLastMessage, ChatService.fallbackMsg,
      List.filter_append]

/-- The conversation table after the reply pipeline: `lastMessageAt` of the
conversation is set to the clock exactly when every step of the success path
succeeded; any failure (which routes to the catch branch) leaves the
conversation table untouched. -/
theorem generateResponse_conversations (env : TurnEnv) (st : Storage) (now : Nat)
    (s cid u : String) :
    ((ChatService.generateResponse env st now s cid u).1).conversations
      = if (env.getMessagesOk
            && ((ChatService.getStoreContext env s u).1).isSome
            && (ZAIService.generateResponse env.fetchOutcome env.responseTime).toOption.isSome
            && env.createAssistantMsgOk && env.createInteractionOk
            && env.updateLastMessageOk) = true
        then st.conversations.map (fun c =>
          if c.id == cid then { c with lastMessageAt := now } else c)
        else st.conversations := by
  unfold ChatService.generateResponse ChatService.runCatch
  rcases hctx : ChatService.getStoreContext env s u with ⟨octx, lk⟩
  rcases hz : ZAIService.generateResponse env.fetchOutcome env.responseTime with r | r <;>
    cases octx <;> repeat' split
  all_goals
    simp_all [Storage.createMessage, Storage.updateConversationLastMessage,
      Except.toOption]

/-- Normal form of the WebSocket turn handler once the user-turn persist is
known to succeed. -/
theorem handleUserMessage_eq (env : TurnEnv) (hub : Hub) (isOpen : ConnId → Bool)
    (st : Storage) (now : Nat) (cid content : String) (ws : ConnId)
    (h : env.createUserMsgOk = true) :
    ChatService.handleUserMessage env hub isOpen st now cid content ws
      = (match ChatService.generateResponse env
            (st.createMessage ⟨cid, .user, content, .empty⟩) now cid cid content with
         | (st2, .ok aiResponse, tr) =>
           (st2,
            ChatService.broadcastToConversation hub isOpen cid
              (.newMessage cid ⟨cid, .user, content, .empty⟩) none
              ++ ChatService.broadcastToConversation hub isOpen cid
                (.newMessage cid aiResponse) none,
            tr)
         | (st2, .threw, tr) =>
           (st2,
            ChatService.broadcastToConversation hub isOpen cid
              (.newMessage cid ⟨cid, .user, content, .empty⟩) none
              ++ [(ws, .errorEv "Failed to process message")],
            tr)) := by
  unfold ChatService.handleUserMessage
  rw [if_neg (by simp [h])]

/-- Normal form of the dispatcher on an accepted `send_message` event. -/
theorem handleWebSocketMessage_send_eq (env : TurnEnv) (hub : Hub)
    (isOpen : ConnId → Bool) (st : Storage) (now : Nat) (ws : ConnId)
    (cid content : String) (hcid : cid ≠ "") (hcontent : content ≠ "") :
    ChatService.handleWebSocketMessage env hub isOpen st now ws
        ⟨.send_message, cid, content⟩
      = { hub := hub
          storage := (ChatService.handleUserMessage env hub isOpen st now cid content ws).1
          events := (ChatService.handleUserMessage env hub isOpen st now cid content ws).2.1
          trace := (ChatService.handleUserMessage env hub isOpen st now cid content ws).2.2 } := by
  unfold ChatService.handleWebSocketMessage
  dsimp only
  rw [if_pos (show (cid != "" && content != "") = true by simp [hcid, hcontent])]

/-- Normal form of the dispatcher on an accepted `join_conversation` event. -/
theorem handleWebSocketMessage_join_eq (env : TurnEnv) (hub : Hub)
    (isOpen : ConnId → Bool) (st : Storage) (now : Nat) (ws : ConnId)
    (cid : String) (h : cid ≠ "") :
    ChatService.handleWebSocketMessage env hub isOpen st now ws
        ⟨.join_conversation, cid, ""⟩
      = { hub := mapSet hub cid ws, storage := st
          events := [(ws, .joined cid)], trace := ⟨[], 0⟩ } := by
  unfold ChatService.handleWebSocketMessage
  dsimp only
  rw [if_pos (show (cid != "") = true by simp [h])]

/-! ## Claim C4 — intent classification of the test corpus -/

/-- Claim C4 counterexample: the classifier is claimed to map
"This is broken and I'm upset" to `complaint`, but none of the complaint
keywords (problem / issue / wrong / complaint) occurs in that text, so the
source classifier falls through every keyword set and returns `other`. -/
theorem c4_intent_counterexample :
    ZAIService.analyzeQueryIntent "This is broken and I\x27m upset" = .other
      ∧ ZAIService.analyzeQueryIntent "This is broken and I\x27m upset" ≠ .complaint := by
  decide

/-- Claim C4 (amended): "Can I get a refund for my order?" classifies as
`policy_question` and "Looking for running shoes" as `product_search`, but
"This is broken and I'm upset" classifies as `other` (not `complaint`);
classification is deterministic — the classifier is a pure function of the
query text. -/
theorem c4_intent_amended :
    ZAIService.analyzeQueryIntent "Can I get a refund for my order?" = .policy_question
      ∧ ZAIService.analyzeQueryIntent "Looking for running shoes" = .product_search
      ∧ ZAIService.analyzeQueryIntent "This is broken and I\x27m upset" = .other
      ∧ ∀ q : String, ZAIService.analyzeQueryIntent q = ZAIService.analyzeQueryIntent q :=
  ⟨by decide, by decide, by decide, fun _ => rfl⟩

/-! ## Claim C7 — unified Gateway failure -/

/-- Claim C7 counterexample: a parseable body whose `choices` array is empty
is a malformed response, yet the Gateway returns a **non-error** result (the
fixed placeholder text) instead of the claimed `GenerationFailed` error,
because `choices[0]?.message?.content` evaluates to `undefined` and the `||`
substitutes the placeholder without throwing. -/
theorem c7_gateway_counterexample :
    ZAIService.generateResponse (.httpResponse true 200 (.parsed (some []) none)) 5
        = .ok ⟨ZAIService.defaultUnableReply, 0, 5⟩
      ∧ ZAIService.generateResponse (.httpResponse true 200 (.parsed (some []) none)) 5
        ≠ .error .generationFailed := by
  decide

/-- Claim C7 (amended): network failure, a non-success HTTP status, an
unparseable body, and a body with no `choices` field at all each raise the
single `generationFailed` error (the error type has exactly one constructor,
so no failure subtypes are distinguishable); however a parseable body whose
choice list carries no content (or empty content) yields a non-error result
containing the fixed placeholder text, with the token count defaulted from
`usage`. -/
theorem c7_gateway_amended (status t : Nat) (b : ZAIService.BodyOutcome)
    (u : Option ZAIService.Usage) (cs : List ZAIService.Choice)
    (h : ZAIService.choiceContent cs = none ∨ ZAIService.choiceContent cs = some "") :
    ZAIService.generateResponse .networkError t = .error .generationFailed
      ∧ ZAIService.generateResponse (.httpResponse false status b) t
        = .error .generationFailed
      ∧ ZAIService.generateResponse (.httpResponse true status .parseError) t
        = .error .generationFailed
      ∧ ZAIService.generateResponse (.httpResponse true status (.parsed none u)) t
        = .error .generationFailed
      ∧ ZAIService.generateResponse (.httpResponse true status (.parsed (some cs) u)) t
        = .ok ⟨ZAIService.defaultUnableReply,
            (match u with | some x => x.total_tokens | none => 0), t⟩ := by
  refine ⟨rfl, rfl, rfl, rfl, ?_⟩
  unfold ZAIService.generateResponse
  rcases h with h | h <;> simp [h]

/-- Closed instance of the C7 amended theorem at an empty choice list, a
parse-error body for the non-success-status case, and absent usage. -/
theorem c7_gateway_amended_witness :
    (ZAIService.choiceContent [] = none ∨ ZAIService.choiceContent [] = some "")
      ∧ (ZAIService.generateResponse .networkError 3 = .error .generationFailed
        ∧ ZAIService.generateResponse (.httpResponse false 500 .parseError) 3
          = .error .generationFailed
        ∧ ZAIService.generateResponse (.httpResponse true 500 .parseError) 3
          = .error .generationFailed
        ∧ ZAIService.generateResponse (.httpResponse true 500 (.parsed none none)) 3
          = .error .generationFailed
        ∧ ZAIService.generateResponse (.httpResponse true 500 (.parsed (some []) none)) 3
          = .ok ⟨ZAIService.defaultUnableReply,
              (match (none : Option ZAIService.Usage) with
               | some x => x.total_tokens | none => 0), 3⟩) :=
  ⟨Or.inl rfl, c7_gateway_amended 500 3 .parseError none [] (Or.inl rfl)⟩

/-! ## Claim C3 — durability before generation -/

/-- Claim C3: for every accepted `send_message` event (non-empty
conversationId and content) whose user-turn persist succeeds, the user-role
Message is in storage after the turn — for **every** collaborator outcome,
including a failing Gateway call and even a failing fallback write, because
the user turn is persisted before the reply pipeline runs and the pipeline
never removes messages. -/
theorem c3_durability (env : TurnEnv) (hub : Hub) (isOpen : ConnId → Bool)
    (st : Storage) (now : Nat) (ws : ConnId) (cid content : String)
    (hcid : cid ≠ "") (hcontent : content ≠ "") (hcreate : env.createUserMsgOk = true) :
    ({ conversationId := cid, role := .user, content := content, metadata := .empty } : Msg)
      ∈ (ChatService.handleWebSocketMessage env hub isOpen st now ws
          ⟨.send_message, cid, content⟩).storage.messages := by
  rw [handleWebSocketMessage_send_eq env hub isOpen st now ws cid content hcid hcontent]
  rw [handleUserMessage_eq env hub isOpen st now cid content ws hcreate]
  have hm : (⟨cid, .user, content, .empty⟩ : Msg)
      ∈ (st.createMessage ⟨cid, .user, content, .empty⟩).messages := by
    simp [Storage.createMessage]
  have hmono := generateResponse_mem_messages env
    (st.createMessage ⟨cid, .user, content, .empty⟩) now cid cid content _ hm
  rcases hg : ChatService.generateResponse env
      (st.createMessage ⟨cid, .user, content, .empty⟩) now cid cid content with ⟨st2, out, tr⟩
  rw [hg] at hmono
  cases out <;> simpa using hmono

/-- Closed instance of C3: the Gateway fetch throws **and** even the
fallback write fails, yet the user message is persisted. -/
theorem c3_durability_witness :
    ("C" : String) ≠ "" ∧ ("hello" : String) ≠ ""
      ∧ ({ envNetFail with createFallbackOk := false } : TurnEnv).createUserMsgOk = true
      ∧ ({ conversationId := "C", role := .user, content := "hello",
            metadata := .empty } : Msg)
        ∈ (ChatService.handleWebSocketMessage { envNetFail with createFallbackOk := false }
            [("C", 1)] allOpen ⟨[], [], 0⟩ 5 1 ⟨.send_message, "C", "hello"⟩).storage.messages :=
  ⟨by decide, by decide, rfl,
    c3_durability { envNetFail with createFallbackOk := false } [("C", 1)] allOpen
      ⟨[], [], 0⟩ 5 1 "C" "hello" (by decide) (by decide) rfl⟩

/-! ## Claim C2 — exactly one reply -/

/-- One `send_message` turn against `envInteractionFail`: every
`createMessage` call (user, assistant, fallback) succeeds, but the
interaction-log write rejects after the assistant reply was persisted. -/
def interactionFailRun : Storage × List (ConnId × OutEvent) × Trace :=
  ChatService.handleUserMessage envInteractionFail [("C", 1)] allOpen ⟨[], [], 0⟩ 5 "C" "hello" 9

/-- Claim C2 counterexample: in `interactionFailRun` every `createMessage`
call succeeds, yet **two** assistant-role messages are persisted for the one
user message — the real reply, then (because the subsequent
`createAiInteraction` rejects and control jumps to the catch branch) also
the fallback apology. -/
theorem c2_one_reply_counterexample :
    (interactionFailRun.1.messages.filter (fun m => m.role == .user)).length = 1
      ∧ (interactionFailRun.1.messages.filter (fun m => m.role == .assistant)).length = 2 := by
  decide

/-- Claim C2 (amended): for every user-role message persisted by the
pipeline, exactly one assistant-role message is persisted in the same
conversation, **provided** the `createMessage` calls succeed and the
post-persist bookkeeping (`createAiInteraction`,
`updateConversationLastMessage`) also succeeds; the Gateway call and the
context resolution may succeed or fail arbitrarily (a failure yields the
one fallback message).  When the bookkeeping fails after the assistant
persist, a second (fallback) assistant message is also persisted. -/
theorem c2_one_reply_amended (env : TurnEnv) (hub : Hub) (isOpen : ConnId → Bool)
    (st : Storage) (now : Nat) (cid content : String) (ws : ConnId)
    (h1 : env.createUserMsgOk = true) (h2 : env.createAssistantMsgOk = true)
    (h3 : env.createInteractionOk = true) (h4 : env.updateLastMessageOk = true)
    (h5 : env.createFallbackOk = true) :
    assistantCount ((ChatService.handleUserMessage env hub isOpen st now cid content ws).1) cid
      = assistantCount st cid + 1 := by
  rw [handleUserMessage_eq env hub isOpen st now cid content ws h1]
  have hcount := generateResponse_assistantCount env
    (st.createMessage ⟨cid, .user, content, .empty⟩) now cid cid content h2 h3 h4 h5
  have huser : assistantCount (st.createMessage ⟨cid, .user, content, .empty⟩) cid
      = assistantCount st cid := by
    simp [assistantCount, Storage.createMessage, List.filter_append]
  rcases hg : ChatService.generateResponse env
      (st.createMessage ⟨cid, .user, content, .empty⟩) now cid cid content with ⟨st2, out, tr⟩
  rw [hg] at hcount
  cases out <;> simpa [huser] using hcount

/-- Closed instance of the C2 amended theorem: one fully successful turn
appends exactly one assistant message. -/
theorem c2_one_reply_witness :
    envOk.createUserMsgOk = true
      ∧ assistantCount ((ChatService.handleUserMessage envOk [("C", 1)] allOpen
          ⟨[], [], 0⟩ 5 "C" "hello" 9).1) "C"
        = assistantCount (⟨[], [], 0⟩ : Storage) "C" + 1 :=
  ⟨rfl, c2_one_reply_amended envOk [("C", 1)] allOpen ⟨[], [], 0⟩ 5 "C" "hello" 9
    rfl rfl rfl rfl rfl⟩

/-! ## Claim C5 — fallback message shape -/

/-- Reply pipeline on any failing turn (history fetch failure, context
resolution failure, or Gateway error): the catch branch persists exactly the
fallback message and returns it, with at most one Gateway invocation. -/
theorem generateResponse_fallback (env : TurnEnv) (st : Storage) (now : Nat)
    (s cid u : String) (h5 : env.createFallbackOk = true)
    (hfail : env.getMessagesOk = false
      ∨ (ChatService.getStoreContext env s u).1 = none
      ∨ ZAIService.generateResponse env.fetchOutcome env.responseTime
          = .error .generationFailed) :
    ∃ tr : Trace, tr.gatewayCalls ≤ 1
      ∧ ChatService.generateResponse env st now s cid u
        = (st.createMessage (ChatService.fallbackMsg cid),
           .ok (ChatService.fallbackMsg cid), tr) := by
  unfold ChatService.generateResponse ChatService.runCatch
  cases hok : env.getMessagesOk with
  | false =>
    refine ⟨⟨[], 0⟩, by decide, ?_⟩
    rw [if_pos rfl, if_pos h5]
  | true =>
    rw [if_neg (by simp)]
    rcases hctx : ChatService.getStoreContext env s u with ⟨octx, lk⟩
    cases octx with
    | none =>
      refine ⟨⟨lk, 0⟩, by simp, ?_⟩
      dsimp only
      rw [if_pos h5]
    | some ctx =>
      have hz : ZAIService.generateResponse env.fetchOutcome env.responseTime
          = .error .generationFailed := by
        rcases hfail with hf | hf | hf
        · rw [hok] at hf; exact absurd hf (by simp)
        · rw [hctx] at hf; exact absurd hf (by simp)
        · exact hf
      refine ⟨⟨lk, 1⟩, by simp, ?_⟩
      dsimp only
      rw [hz]
      dsimp only
      rw [if_pos h5]

/-- One `send_message` turn against `envNetFail` (the Gateway fetch throws)
on a storage holding one conversation with `lastMessageAt = 5`, at clock 10. -/
def netFailRun : Storage × List (ConnId × OutEvent) × Trace :=
  ChatService.handleUserMessage envNetFail [("C", 1)] allOpen
    ⟨[], [⟨"C", "S", 5, 5⟩], 0⟩ 10 "C" "hello" 9

/-- Claim C5 counterexample: on a Gateway failure the persisted assistant
message carries metadata `{error: true, errorType: "ai_generation_failed"}`
— not the claimed `{error: true, errorType: "generation_failed"}`. -/
theorem c5_fallback_counterexample :
    netFailRun.1.messages.filter (fun m => m.role == .assistant)
        = [⟨"C", .assistant, ChatService.fallbackContent,
            .errorMeta true "ai_generation_failed"⟩]
      ∧ Metadata.errorMeta true "ai_generation_failed"
        ≠ Metadata.errorMeta true "generation_failed" := by
  decide

/-- Claim C5 (amended): whenever the turn fails before the assistant persist
(history fetch failure, context-resolution failure, or Gateway error) and
the fallback write succeeds, exactly one assistant message is persisted
after the user turn; its content is the fixed apology string and its
metadata is `{error: true, errorType: "ai_generation_failed"}`; it is
broadcast to the conversation in place of a real reply; and the Gateway is
invoked at most once (no automatic retry). -/
theorem c5_fallback_amended (env : TurnEnv) (hub : Hub) (isOpen : ConnId → Bool)
    (st : Storage) (now : Nat) (cid content : String) (ws : ConnId)
    (h1 : env.createUserMsgOk = true) (h5 : env.createFallbackOk = true)
    (hfail : env.getMessagesOk = false
      ∨ (ChatService.getStoreContext env cid content).1 = none
      ∨ ZAIService.generateResponse env.fetchOutcome env.responseTime
          = .error .generationFailed) :
    ((ChatService.handleUserMessage env hub isOpen st now cid content ws).1).messages
        = st.messages ++ [⟨cid, .user, content, .empty⟩,
            ⟨cid, .assistant, ChatService.fallbackContent,
              .errorMeta true "ai_generation_failed"⟩]
      ∧ (ChatService.handleUserMessage env hub isOpen st now cid content ws).2.1
        = ChatService.broadcastToConversation hub isOpen cid
            (.newMessage cid ⟨cid, .user, content, .empty⟩) none
          ++ ChatService.broadcastToConversation hub isOpen cid
            (.newMessage cid ⟨cid, .assistant, ChatService.fallbackContent,
              .errorMeta true "ai_generation_failed"⟩) none
      ∧ ((ChatService.handleUserMessage env hub isOpen st now cid content ws).2.2).gatewayCalls
        ≤ 1 := by
  obtain ⟨tr, htr, heq⟩ := generateResponse_fallback env
    (st.createMessage ⟨cid, .user, content, .empty⟩) now cid cid content h5 hfail
  rw [handleUserMessage_eq env hub isOpen st now cid content ws h1, heq]
  refine ⟨?_, ?_, htr⟩
  · simp [Storage.createMessage, ChatService.fallbackMsg]
  · simp [ChatService.fallbackMsg]

/-- Closed instance of the C5 amended theorem at a network failure. -/
theorem c5_fallback_witness :
    envNetFail.createUserMsgOk = true
      ∧ (((ChatService.handleUserMessage envNetFail [("C", 1)] allOpen
            ⟨[], [], 0⟩ 4 "C" "hi" 9).1).messages
          = ([] : List Msg) ++ [⟨"C", .user, "hi", .empty⟩,
              ⟨"C", .assistant, ChatService.fallbackContent,
                .errorMeta true "ai_generation_failed"⟩]
        ∧ (ChatService.handleUserMessage envNetFail [("C", 1)] allOpen
            ⟨[], [], 0⟩ 4 "C" "hi" 9).2.1
          = ChatService.broadcastToConversation [("C", 1)] allOpen "C"
              (.newMessage "C" ⟨"C", .user, "hi", .empty⟩) none
            ++ ChatService.broadcastToConversation [("C", 1)] allOpen "C"
              (.newMessage "C" ⟨"C", .assistant, ChatService.fallbackContent,
                .errorMeta true "ai_generation_failed"⟩) none
        ∧ ((ChatService.handleUserMessage envNetFail [("C", 1)] allOpen
            ⟨[], [], 0⟩ 4 "C" "hi" 9).2.2).gatewayCalls ≤ 1) :=
  ⟨rfl, c5_fallback_amended envNetFail [("C", 1)] allOpen ⟨[], [], 0⟩ 4 "C" "hi" 9
    rfl rfl (Or.inr (Or.inr rfl))⟩

/-! ## Claim C8 — conversation freshness -/

/-- Claim C8 counterexample: a turn that routes to Fallback (Gateway fetch
throws) does process a full turn — two messages are appended — yet
`lastMessageAt` of the conversation stays at its old value 5 instead of
being updated to the clock value 10, because
`updateConversationLastMessage` is only reached on the success path. -/
theorem c8_freshness_counterexample :
    netFailRun.1.conversations = [⟨"C", "S", 5, 5⟩]
      ∧ netFailRun.1.messages.length = 2 := by
  decide

/-- Claim C8 (amended): `lastMessageAt` is set to the current clock exactly
on fully successful turns (history fetch, context resolution, Gateway call,
assistant persist, interaction log and the freshness write itself all
succeed); on every other turn — in particular every Fallback turn — the
conversation row is left unchanged.  When it is updated it is set to `now`,
so it is non-decreasing whenever the clock is. -/
theorem c8_freshness_amended (env : TurnEnv) (hub : Hub) (isOpen : ConnId → Bool)
    (st : Storage) (now : Nat) (cid content : String) (ws : ConnId)
    (h1 : env.createUserMsgOk = true) :
    ((ChatService.handleUserMessage env hub isOpen st now cid content ws).1).conversations
      = if (env.getMessagesOk
            && ((ChatService.getStoreContext env cid content).1).isSome
            && (ZAIService.generateResponse env.fetchOutcome env.responseTime).toOption.isSome
            && env.createAssistantMsgOk && env.createInteractionOk
            && env.updateLastMessageOk) = true
        then st.conversations.map (fun c =>
          if c.id == cid then { c with lastMessageAt := now } else c)
        else st.conversations := by
  rw [handleUserMessage_eq env hub isOpen st now cid content ws h1]
  have hconv := generateResponse_conversations env
    (st.createMessage ⟨cid, .user, content, .empty⟩) now cid cid content
  rcases hg : ChatService.generateResponse env
      (st.createMessage ⟨cid, .user, content, .empty⟩) now cid cid content with ⟨st2, out, tr⟩
  rw [hg] at hconv
  cases out <;> simpa [Storage.createMessage] using hconv

/-- Closed instance of the C8 amended theorem: a fully successful turn at
clock 10 advances `lastMessageAt` of the conversation from 5 to 10. -/
theorem c8_freshness_witness :
    envOk.createUserMsgOk = true
      ∧ ((ChatService.handleUserMessage envOk [("C", 1)] allOpen
          ⟨[], [⟨"C", "S", 5, 5⟩], 0⟩ 10 "C" "hello" 9).1).conversations
        = [⟨"C", "S", 5, 10⟩] :=
  ⟨rfl, (c8_freshness_amended envOk [("C", 1)] allOpen ⟨[], [⟨"C", "S", 5, 5⟩], 0⟩
    10 "C" "hello" 9 rfl).trans (by decide)⟩

/-! ## Claim C1 — broadcast fan-out -/

/-- Registry state after connections 1, 2 and 3 join conversation "C" (in
that order) and connection 4 joins conversation "D", all through the
WebSocket dispatcher. -/
def fanJoinHub : Hub :=
  (ChatService.handleWebSocketMessage envOk
    ((ChatService.handleWebSocketMessage envOk
      ((ChatService.handleWebSocketMessage envOk
        ((ChatService.handleWebSocketMessage envOk ([] : Hub) allOpen ⟨[], [], 0⟩ 0 1
          ⟨.join_conversation, "C", ""⟩).hub)
        allOpen ⟨[], [], 0⟩ 0 2 ⟨.join_conversation, "C", ""⟩).hub)
      allOpen ⟨[], [], 0⟩ 0 3 ⟨.join_conversation, "C", ""⟩).hub)
    allOpen ⟨[], [], 0⟩ 0 4 ⟨.join_conversation, "D", ""⟩).hub

/-- A fully successful `send_message` on "C" from connection 1 over
`fanJoinHub`. -/
def fanStep : ChatService.WsStep :=
  ChatService.handleWebSocketMessage envOk fanJoinHub allOpen ⟨[], [], 0⟩ 5 1
    ⟨.send_message, "C", "hello"⟩

/-- Claim C1 counterexample: although connections 1, 2 and 3 all joined
conversation "C", the registry (a map keyed by conversation id) retains only
the most recent join per conversation, so a `send_message` on "C" delivers
exactly two `new_message` events — the user echo and the generated assistant
reply — both to connection 3 only; connections 1 and 2 receive nothing,
refuting delivery of either message to all three C-connections. -/
theorem c1_fanout_counterexample :
    fanJoinHub = [("C", 3), ("D", 4)]
      ∧ fanStep.events
        = [(3, OutEvent.newMessage "C" ⟨"C", .user, "hello", .empty⟩),
           (3, OutEvent.newMessage "C" ⟨"C", .assistant, "Sure, we have those.",
             .success "glm-4.5-flash" 42 7 .other [⟨"p1", "Shoe", "shoe"⟩]⟩)]
      ∧ fanStep.events.filter (fun e => e.1 == 1) = []
      ∧ fanStep.events.filter (fun e => e.1 == 2) = [] := by
  decide

/-- Claim C1 (amended): the registry keeps at most one connection per
conversation — the most recent join wins — so after three joins to C and one
to D the registry is exactly `[(C, c), (D, d)]`.  On any `send_message` on C
(sent by the surviving C-connection) whose reply pipeline returns an
assistant message `aiMsg` (the generated reply, or the persisted fallback
when generation fails), exactly two `new_message` events are emitted — the
user echo and `aiMsg` — both delivered to that most recently joined
C-connection only, and nothing is delivered to D's connection. -/
theorem c1_fanout_amended (env : TurnEnv) (stJ st : Storage) (nowJ now : Nat)
    (a b c d : ConnId) (C D content : String) (aiMsg : Msg)
    (hCD : C ≠ D) (hC : C ≠ "") (hD : D ≠ "") (hcd : c ≠ d)
    (h1 : env.createUserMsgOk = true)
    (hg : (ChatService.generateResponse env
        (st.createMessage ⟨C, .user, content, .empty⟩) now C C content).2.1
      = .ok aiMsg) :
    (ChatService.handleWebSocketMessage env
        ((ChatService.handleWebSocketMessage env
          ((ChatService.handleWebSocketMessage env
            ((ChatService.handleWebSocketMessage env ([] : Hub) allOpen stJ nowJ a
              ⟨.join_conversation, C, ""⟩).hub)
            allOpen stJ nowJ b ⟨.join_conversation, C, ""⟩).hub)
          allOpen stJ nowJ c ⟨.join_conversation, C, ""⟩).hub)
        allOpen stJ nowJ d ⟨.join_conversation, D, ""⟩).hub
      = [(C, c), (D, d)]
      ∧ (ChatService.handleUserMessage env [(C, c), (D, d)] allOpen st now C content c).2.1
        = [(c, OutEvent.newMessage C ⟨C, .user, content, .empty⟩),
           (c, OutEvent.newMessage C aiMsg)]
      ∧ ((ChatService.handleUserMessage env [(C, c), (D, d)] allOpen st now C content c).2.1).filter
        (fun e => e.1 == d) = [] := by
  have hDC : ¬ (D = C) := fun h => hCD h.symm
  have hevents : (ChatService.handleUserMessage env [(C, c), (D, d)] allOpen st now C content c).2.1
      = [(c, OutEvent.newMessage C ⟨C, .user, content, .empty⟩),
         (c, OutEvent.newMessage C aiMsg)] := by
    rw [handleUserMessage_eq env [(C, c), (D, d)] allOpen st now C content c h1]
    rcases hgen : ChatService.generateResponse env
        (st.createMessage ⟨C, .user, content, .empty⟩) now C C content with ⟨st2, out, tr⟩
    rw [hgen] at hg
    cases out with
    | threw => simp at hg
    | ok m =>
      simp only [ChatService.GenOutcome.ok.injEq] at hg
      subst hg
      simp [ChatService.broadcastToConversation, allOpen, hDC]
  refine ⟨?_, hevents, ?_⟩
  · rw [handleWebSocketMessage_join_eq env ([] : Hub) allOpen stJ nowJ a C hC]
    rw [handleWebSocketMessage_join_eq env _ allOpen stJ nowJ b C hC]
    rw [handleWebSocketMessage_join_eq env _ allOpen stJ nowJ c C hC]
    rw [handleWebSocketMessage_join_eq env _ allOpen stJ nowJ d D hD]
    simp [mapSet, hCD, hDC]
  · rw [hevents]
    simp [hcd]

/-- Closed instance of the C1 amended theorem at the counterexample's
configuration: the pipeline returns the generated reply, and both the echo
and the reply go to connection 3 only. -/
theorem c1_fanout_witness :
    ((ChatService.generateResponse envOk
        ((⟨[], [], 0⟩ : Storage).createMessage ⟨"C", .user, "hello", .empty⟩) 5 "C" "C" "hello").2.1
      = .ok ⟨"C", .assistant, "Sure, we have those.",
          .success "glm-4.5-flash" 42 7 .other [⟨"p1", "Shoe", "shoe"⟩]⟩)
      ∧ ((ChatService.handleWebSocketMessage envOk
            ((ChatService.handleWebSocketMessage envOk
              ((ChatService.handleWebSocketMessage envOk
                ((ChatService.handleWebSocketMessage envOk ([] : Hub) allOpen ⟨[], [], 0⟩ 0 1
                  ⟨.join_conversation, "C", ""⟩).hub)
                allOpen ⟨[], [], 0⟩ 0 2 ⟨.join_conversation, "C", ""⟩).hub)
              allOpen ⟨[], [], 0⟩ 0 3 ⟨.join_conversation, "C", ""⟩).hub)
            allOpen ⟨[], [], 0⟩ 0 4 ⟨.join_conversation, "D", ""⟩).hub
          = [("C", 3), ("D", 4)]
        ∧ (ChatService.handleUserMessage envOk [("C", 3), ("D", 4)] allOpen
            ⟨[], [], 0⟩ 5 "C" "hello" 3).2.1
          = [(3, OutEvent.newMessage "C" ⟨"C", .user, "hello", .empty⟩),
             (3, OutEvent.newMessage "C" ⟨"C", .assistant, "Sure, we have those.",
               .success "glm-4.5-flash" 42 7 .other [⟨"p1", "Shoe", "shoe"⟩]⟩)]
        ∧ ((ChatService.handleUserMessage envOk [("C", 3), ("D", 4)] allOpen
            ⟨[], [], 0⟩ 5 "C" "hello" 3).2.1).filter (fun e => e.1 == 4) = []) :=
  ⟨by decide,
    c1_fanout_amended envOk ⟨[], [], 0⟩ ⟨[], [], 0⟩ 0 5 1 2 3 4 "C" "D" "hello"
      ⟨"C", .assistant, "Sure, we have those.",
        .success "glm-4.5-flash" 42 7 .other [⟨"p1", "Shoe", "shoe"⟩]⟩
      (by decide) (by decide) (by decide) (by decide) rfl (by decide)⟩

/-! ## Claim C6 — register replaces prior association -/

/-- Registry state after connection 1 joins "A" and then joins "B" through
the WebSocket dispatcher. -/
def rejoinHub : Hub :=
  (ChatService.handleWebSocketMessage envOk
    ((ChatService.handleWebSocketMessage envOk ([] : Hub) allOpen ⟨[], [], 0⟩ 0 1
      ⟨.join_conversation, "A", ""⟩).hub)
    allOpen ⟨[], [], 0⟩ 0 1 ⟨.join_conversation, "B", ""⟩).hub

/-- Claim C6 counterexample: after connection 1 joins "A" and then "B", the
registry (keyed by conversation id, not by connection) still holds **both**
associations, and a broadcast on "A" is still delivered to connection 1 —
refuting the claim that the second register removes the prior association
and that the connection then receives broadcasts only for "B". -/
theorem c6_register_counterexample :
    rejoinHub = [("A", 1), ("B", 1)]
      ∧ ChatService.broadcastToConversation rejoinHub allOpen "A" (.typing true "A") none
        = [(1, .typing true "A")] := by
  decide

/-- Claim C6 (amended): `join_conversation` replaces any prior association
for that **conversation id** (the registry is keyed by conversation, not by
connection); a connection that joins two different conversations is
afterwards registered under both and receives broadcasts for both. -/
theorem c6_register_amended (env : TurnEnv) (st : Storage) (now : Nat) (ws : ConnId)
    (A B : String) (ev : OutEvent) (hAB : A ≠ B) (hA : A ≠ "") (hB : B ≠ "") :
    (ChatService.handleWebSocketMessage env
        (ChatService.handleWebSocketMessage env ([] : Hub) allOpen st now ws
          ⟨.join_conversation, A, ""⟩).hub
        allOpen st now ws ⟨.join_conversation, B, ""⟩).hub
      = [(A, ws), (B, ws)]
      ∧ ChatService.broadcastToConversation [(A, ws), (B, ws)] allOpen A ev none
        = [(ws, ev)]
      ∧ ChatService.broadcastToConversation [(A, ws), (B, ws)] allOpen B ev none
        = [(ws, ev)] := by
  have hBA : ¬ (B = A) := fun h => hAB h.symm
  refine ⟨?_, ?_, ?_⟩
  · rw [handleWebSocketMessage_join_eq env ([] : Hub) allOpen st now ws A hA]
    rw [handleWebSocketMessage_join_eq env _ allOpen st now ws B hB]
    simp [mapSet, hAB, hBA]
  · simp [ChatService.broadcastToConversation, allOpen, hBA]
  · simp [ChatService.broadcastToConversation, allOpen, hAB]

/-- Closed instance of the C6 amended theorem. -/
theorem c6_register_witness :
    ("A" : String) ≠ "B"
      ∧ ((ChatService.handleWebSocketMessage envOk
            (ChatService.handleWebSocketMessage envOk ([] : Hub) allOpen ⟨[], [], 0⟩ 0 1
              ⟨.join_conversation, "A", ""⟩).hub
            allOpen ⟨[], [], 0⟩ 0 1 ⟨.join_conversation, "B", ""⟩).hub
          = [("A", 1), ("B", 1)]
        ∧ ChatService.broadcastToConversation [("A", 1), ("B", 1)] allOpen "A"
            (.typing true "A") none = [(1, .typing true "A")]
        ∧ ChatService.broadcastToConversation [("A", 1), ("B", 1)] allOpen "B"
            (.typing true "A") none = [(1, .typing true "A")]) :=
  ⟨by decide,
    c6_register_amended envOk ⟨[], [], 0⟩ 0 1 "A" "B" (.typing true "A")
      (by decide) (by decide) (by decide)⟩

/-! ## Claim C9 — idempotent join -/

/-- Claim C9: processing the same `join_conversation` twice from the same
connection leaves exactly one registration for that (conversation,
connection) pairing — the registry keys stay distinct, and `Map.set` with an
existing key overwrites in place — while each of the two calls sends exactly
one `joined` acknowledgement to that connection only. -/
theorem c9_idempotent_join (env : TurnEnv) (st : Storage) (now : Nat)
    (hub : Hub) (ws : ConnId) (cid : String)
    (hnodup : (hub.map Prod.fst).Nodup) (hcid : cid ≠ "") :
    (ChatService.handleWebSocketMessage env hub allOpen st now ws
        ⟨.join_conversation, cid, ""⟩).events
      = [(ws, .joined cid)]
      ∧ (ChatService.handleWebSocketMessage env
          (ChatService.handleWebSocketMessage env hub allOpen st now ws
            ⟨.join_conversation, cid, ""⟩).hub
          allOpen st now ws ⟨.join_conversation, cid, ""⟩).events
        = [(ws, .joined cid)]
      ∧ ((ChatService.handleWebSocketMessage env
          (ChatService.handleWebSocketMessage env hub allOpen st now ws
            ⟨.join_conversation, cid, ""⟩).hub
          allOpen st now ws ⟨.join_conversation, cid, ""⟩).hub).filter
            (fun p => p.1 == cid)
        = [(cid, ws)] := by
  rw [handleWebSocketMessage_join_eq env hub allOpen st now ws cid hcid]
  rw [handleWebSocketMessage_join_eq env (mapSet hub cid ws) allOpen st now ws cid hcid]
  exact ⟨rfl, rfl,
    filter_key_mapSet (mapSet hub cid ws) cid ws (mapSet_keys_nodup hub cid ws hnodup)⟩

/-- Closed instance of C9 on a registry already holding another
conversation. -/
theorem c9_idempotent_join_witness :
    (([("X", 5)] : Hub).map Prod.fst).Nodup ∧ ("C" : String) ≠ ""
      ∧ ((ChatService.handleWebSocketMessage envOk [("X", 5)] allOpen ⟨[], [], 0⟩ 0 1
            ⟨.join_conversation, "C", ""⟩).events
          = [(1, .joined "C")]
        ∧ (ChatService.handleWebSocketMessage envOk
            (ChatService.handleWebSocketMessage envOk [("X", 5)] allOpen ⟨[], [], 0⟩ 0 1
              ⟨.join_conversation, "C", ""⟩).hub
            allOpen ⟨[], [], 0⟩ 0 1 ⟨.join_conversation, "C", ""⟩).events
          = [(1, .joined "C")]
        ∧ ((ChatService.handleWebSocketMessage envOk
            (ChatService.handleWebSocketMessage envOk [("X", 5)] allOpen ⟨[], [], 0⟩ 0 1
              ⟨.join_conversation, "C", ""⟩).hub
            allOpen ⟨[], [], 0⟩ 0 1 ⟨.join_conversation, "C", ""⟩).hub).filter
              (fun p => p.1 == "C")
          = [("C", 1)]) :=
  ⟨by decide, by decide,
    c9_idempotent_join envOk ⟨[], [], 0⟩ 0 [("X", 5)] 1 "C" (by decide) (by decide)⟩

/-! ## Claim C10 — store-id argument on the WebSocket path -/

/-- Claim C10: on the WebSocket path, `handleUserMessage` passes
`userMessage.conversationId` (the conversation id) as the `storeId` argument
of `generateResponse`, so **every** Context Store lookup made while
resolving the Store Context Snapshot for such a turn is keyed by the
conversation id; on the REST path the lookups are keyed by the stored
`storeId` of the conversation. -/
theorem c10_storeid_argument (env : TurnEnv) (hub : Hub) (isOpen : ConnId → Bool)
    (stW stR : Storage) (nowW nowR : Nat) (cid content : String) (ws : ConnId)
    (conv : ConvRec)
    (hfind : stR.conversations.find? (fun c => c.id == cid) = some conv) :
    ((ChatService.handleUserMessage env hub isOpen stW nowW cid content ws).2.2).lookups.all
        (fun l => l.sid == cid) = true
      ∧ ((RestApi.postConversationMessage env stR nowR cid .user content).2).lookups.all
        (fun l => l.sid == conv.storeId) = true := by
  constructor
  · by_cases h1 : env.createUserMsgOk = true
    · rw [handleUserMessage_eq env hub isOpen stW nowW cid content ws h1]
      have hlk := generateResponse_lookups_sid env
        (stW.createMessage ⟨cid, .user, content, .empty⟩) nowW cid cid content
      rcases hg : ChatService.generateResponse env
          (stW.createMessage ⟨cid, .user, content, .empty⟩) nowW cid cid content
        with ⟨st2, out, tr⟩
      rw [hg] at hlk
      cases out <;> simpa using hlk
    · have h1f : env.createUserMsgOk = false := by
        revert h1; cases env.createUserMsgOk <;> simp
      unfold ChatService.handleUserMessage
      rw [if_pos h1f]
      rfl
  · unfold RestApi.postConversationMessage
    by_cases h1 : env.createUserMsgOk = true
    · rw [if_neg (by simp [h1])]
      dsimp only
      rw [if_pos rfl]
      have hfind1 : ((stR.createMessage ⟨cid, .user, content, .empty⟩).conversations).find?
          (fun c => c.id == cid) = some conv := hfind
      rw [hfind1]
      have hlk := generateResponse_lookups_sid env
        (stR.createMessage ⟨cid, .user, content, .empty⟩) nowR conv.storeId cid content
      simpa using hlk
    · have h1f : env.createUserMsgOk = false := by
        revert h1; cases env.createUserMsgOk <;> simp
      rw [if_pos h1f]
      rfl

/-- Closed instance of C10: the WebSocket turn looks the store context up
under the conversation id "C", the REST turn under the stored store id "S". -/
theorem c10_storeid_argument_witness :
    (([⟨"C", "S", 3, 3⟩] : List ConvRec).find? (fun c => c.id == "C")
        = some ⟨"C", "S", 3, 3⟩)
      ∧ (((ChatService.handleUserMessage envOk [("C", 1)] allOpen ⟨[], [], 0⟩ 5
            "C" "hello" 9).2.2).lookups.all (fun l => l.sid == "C") = true
        ∧ ((RestApi.postConversationMessage envOk ⟨[], [⟨"C", "S", 3, 3⟩], 0⟩ 5
            "C" .user "hello").2).lookups.all
              (fun l => l.sid == (⟨"C", "S", 3, 3⟩ : ConvRec).storeId) = true) :=
  ⟨by decide,
    c10_storeid_argument envOk [("C", 1)] allOpen ⟨[], [], 0⟩ ⟨[], [⟨"C", "S", 3, 3⟩], 0⟩
      5 5 "C" "hello" 9 ⟨"C", "S", 3, 3⟩ (by decide)⟩

end ShopChat
